import Mathlib

/-!
Verification of `dolphin/transcribe.py`: a command-line utility that loads a
pretrained speech-to-text checkpoint and runs inference on one audio file.

The Python module is shallowly embedded below.  External collaborators (the
filesystem, CUDA availability, the audio loader `load_audio` and the external
`DolphinSpeech2Text` model class) are parameters of the embedded functions;
every interaction with them (constructor calls, model invocations, log lines)
is recorded in an explicit trace so that the plumbing the module performs is
fully observable.
-/

namespace Dolphin

/-- A filesystem path, modelled by the string it denotes.  The claims under
study only build paths with pathlib's `/` operator and compare the results,
so cosmetic normalisation performed by pathlib is not modelled. -/
structure Path where
  value : String
deriving DecidableEq

/-- pathlib's `/` operator: `p / child` appends one component. -/
def Path.join (p : Path) (child : String) : Path :=
  ⟨p.value ++ "/" ++ child⟩

/-- The `model_dir` argument of `load_model` may arrive as a `Path` (the
argparse `type=Path` route) or as a plain string (a direct caller). -/
inductive PathLike where
  | path (p : Path)
  | str (s : String)
deriving DecidableEq

/-- The `isinstance(model_dir, Path)` branch of `load_model`: a `Path` is
kept, anything else goes through `Path(model_dir)`. -/
def PathLike.toPath : PathLike → Path
  | .path p => p
  | .str s => ⟨s⟩

/-- A Python value carried through `**kwargs` and result records. -/
inductive PyVal where
  | str (s : String)
  | bool (b : Bool)
  | int (n : Int)
deriving DecidableEq

/-- `kwargs.get(key, default)` on a keyword-argument list. -/
def kwGet (kwargs : List (String × PyVal)) (key : String) (dflt : PyVal) : PyVal :=
  match kwargs.find? (fun kv => kv.1 == key) with
  | some kv => kv.2
  | none => dflt

/-- Whether a keyword-argument list binds `key`. -/
def hasKey (kwargs : List (String × PyVal)) (key : String) : Bool :=
  kwargs.any (fun kv => kv.1 == key)

/-- Log levels used by the module (`logger.error`, `logger.info`). -/
inductive LogLevel where
  | error
  | info
deriving DecidableEq

/-- One emitted log line. -/
structure LogMsg where
  level : LogLevel
  msg : String
deriving DecidableEq

/-- Exceptions the embedded code can raise: the generic
`Exception(f"model ... not found, please download the model first.")` of
`load_model`, and the `TypeError` Python raises when a keyword argument is
supplied twice in one call. -/
inductive PyError where
  | exception (msg : String)
  | typeError
deriving DecidableEq

/-- The waveform returned by the external `load_audio` collaborator.  Its
internal representation lives outside this repository; an abstract carrier
with decidable equality suffices for the plumbing claims. -/
structure Waveform where
  samples : List Int
deriving DecidableEq

/-- The external `DolphinSpeech2Text` model object, represented by the exact
keyword arguments its constructor receives from `load_model`:
`s2t_train_config`, `s2t_model_file`, `device`,
`task_sym=kwargs.get("task_sym", "<asr>")`,
`predict_time=kwargs.get("predict_time", True)`, and the forwarded
`**kwargs`. -/
structure DolphinSpeech2Text where
  s2t_train_config : Path
  s2t_model_file : Path
  device : String
  task_sym : PyVal
  predict_time : PyVal
  kwargs : List (String × PyVal)
deriving DecidableEq

/-- The keyword arguments of one model invocation `model(speech=..., ...)`
inside `transcribe`. -/
structure InvokeArgs where
  speech : Waveform
  lang_sym : Option String
  region_sym : Option String
  predict_time : Bool
  padding_speech : Bool
deriving DecidableEq

/-- The result record returned by the external model call: the `text` and
`text_nospecial` fields named by the module, plus any further fields of the
external record. -/
structure DecodeResult where
  text : String
  text_nospecial : String
  extra : List (String × PyVal)
deriving DecidableEq

/-- The parsed command-line arguments produced by `parser_args`: one field
per flag, with the parsed value.  `maxlenratio` is parsed by `float`; its
numeric representation is irrelevant to the claims, so an exact carrier is
used. -/
structure Args where
  audio : String
  model : String
  model_dir : Path
  lang_sym : Option String
  region_sym : Option String
  dtype : String
  device : Option String
  normalize_length : Bool
  padding_speech : Bool
  predict_time : Bool
  beam_size : Int
  maxlenratio : Rat
deriving DecidableEq

deriving instance DecidableEq for Except

/-- What a call to `load_model` does: the log lines it emits and either the
exception it raises or the model object it constructs and returns. -/
structure LoadModelTrace where
  logs : List LogMsg
  outcome : Except PyError DolphinSpeech2Text
deriving DecidableEq

/-- `load_model(model_name, model_dir, device=None, **kwargs)`.

Mirrors the source line by line: default the device to `"cuda"` when CUDA is
available and `"cpu"` otherwise; coerce a non-`Path` `model_dir` through
`Path(...)`; resolve `model_dir / f"{model_name}.pt"` and
`model_dir / "config.yaml"`; if the checkpoint file does not exist, log an
error and raise; otherwise call the `DolphinSpeech2Text` constructor.  The
constructor call passes `task_sym` and `predict_time` explicitly via
`kwargs.get` and then also expands `**kwargs`, so Python raises a
`TypeError` (duplicate keyword argument, before the constructor body runs)
whenever `kwargs` itself binds `task_sym` or `predict_time`. -/
def load_model (cuda_available : Bool) (fileExists : Path → Bool)
    (model_name : String) (model_dir : PathLike)
    (device : Option String) (kwargs : List (String × PyVal)) : LoadModelTrace :=
  let device : String :=
    match device with
    | some d => d
    | none => if cuda_available then "cuda" else "cpu"
  let model_dir : Path := model_dir.toPath
  let model_file : Path := model_dir.join (model_name ++ ".pt")
  let train_cfg : Path := model_dir.join "config.yaml"
  if ! fileExists model_file then
    { logs := [⟨.error, "model " ++ model_name ++ " not found."⟩],
      outcome := .error (.exception
        ("model " ++ model_name ++ " not found, please download the model first.")) }
  else if hasKey kwargs "task_sym" || hasKey kwargs "predict_time" then
    { logs := [], outcome := .error .typeError }
  else
    { logs := [],
      outcome := .ok
        { s2t_train_config := train_cfg
          s2t_model_file := model_file
          device := device
          task_sym := kwGet kwargs "task_sym" (.str "<asr>")
          predict_time := kwGet kwargs "predict_time" (.bool true)
          kwargs := kwargs } }

/-- What a call to `transcribe` does: log lines, every `DolphinSpeech2Text`
constructor call made, every model invocation made, and the returned record
or raised exception. -/
structure TranscribeTrace where
  logs : List LogMsg
  models : List DolphinSpeech2Text
  calls : List InvokeArgs
  outcome : Except PyError DecodeResult
deriving DecidableEq

/-- `transcribe(args)`: load the model via
`load_model(args.model, args.model_dir, args.device)` (exceptions
propagate), load the waveform via `load_audio(args.audio)`, invoke the model
once with `speech`, `lang_sym`, `region_sym`, `predict_time` and
`padding_speech`, log the `text` field of the result and return the result
record. -/
def transcribe (cuda_available : Bool) (fileExists : Path → Bool)
    (load_audio : String → Waveform)
    (invoke : DolphinSpeech2Text → InvokeArgs → DecodeResult)
    (args : Args) : TranscribeTrace :=
  let model_name := args.model
  let lm := load_model cuda_available fileExists model_name (.path args.model_dir)
    args.device []
  match lm.outcome with
  | .error e => { logs := lm.logs, models := [], calls := [], outcome := .error e }
  | .ok model =>
      let waveform := load_audio args.audio
      let call : InvokeArgs :=
        { speech := waveform
          lang_sym := args.lang_sym
          region_sym := args.region_sym
          predict_time := args.predict_time
          padding_speech := args.padding_speech }
      let result := invoke model call
      { logs := lm.logs ++ [⟨.info, "decode result, text: " ++ result.text⟩],
        models := [model]
        calls := [call]
        outcome := .ok result }

/-- `cli()`: configures logging (pure environment setup, no observable
effect in the embedding), parses the command line into `Args` (argparse is
external; the parsed record is taken as input) and runs `transcribe`. -/
def cli (cuda_available : Bool) (fileExists : Path → Bool)
    (load_audio : String → Waveform)
    (invoke : DolphinSpeech2Text → InvokeArgs → DecodeResult)
    (args : Args) : TranscribeTrace :=
  transcribe cuda_available fileExists load_audio invoke args

/-- `distutils.util.strtobool`, the standard-library helper `str2bool`
wraps: lowercase the input, return 1 on the true words, 0 on the false
words, raise `ValueError` otherwise.  Python lowercasing restricted to
ASCII, which is where the recognised words live. -/
def strtobool (val : String) : Except String Nat :=
  let val := val.toLower
  if val ∈ ["y", "yes", "t", "true", "on", "1"] then .ok 1
  else if val ∈ ["n", "no", "f", "false", "off", "0"] then .ok 0
  else .error ("invalid truth value " ++ val)

/-- `str2bool(value) = bool(strtobool(value))`; a raised `ValueError`
propagates. -/
def str2bool (value : String) : Except String Bool :=
  match strtobool value with
  | .ok n => .ok (n != 0)
  | .error e => .error e

/-! ### Demonstration environment: one concrete instantiation of the external
collaborators and of the parsed arguments, used by witnesses and
counterexamples. -/

/-- A filesystem on which every path exists. -/
def demoExists : Path → Bool := fun _ => true

/-- A concrete audio loader. -/
def demoAudio : String → Waveform := fun _ => ⟨[0, 1]⟩

/-- A concrete external model invocation. -/
def demoInvoke : DolphinSpeech2Text → InvokeArgs → DecodeResult :=
  fun _ _ => ⟨"hello", "hello", []⟩

/-- A concrete parsed argument set. -/
def demoArgsA : Args :=
  { audio := "test.wav"
    model := "small"
    model_dir := ⟨"/models"⟩
    lang_sym := some "<zh>"
    region_sym := some "<CN>"
    dtype := "float32"
    device := some "cpu"
    normalize_length := false
    padding_speech := true
    predict_time := true
    beam_size := 5
    maxlenratio := 0 }

/-- `demoArgsA` with different values for the four flags that the module
parses but never reads. -/
def demoArgsB : Args :=
  { demoArgsA with
    dtype := "float16"
    normalize_length := true
    beam_size := 7
    maxlenratio := 1 }

/-- The model object `load_model` constructs in the demonstration
environment. -/
def demoModelA : DolphinSpeech2Text :=
  { s2t_train_config := ⟨"/models/config.yaml"⟩
    s2t_model_file := ⟨"/models/small.pt"⟩
    device := "cpu"
    task_sym := .str "<asr>"
    predict_time := .bool true
    kwargs := [] }

/-- The invocation `transcribe` performs in the demonstration
environment. -/
def demoCallA : InvokeArgs :=
  { speech := ⟨[0, 1]⟩
    lang_sym := some "<zh>"
    region_sym := some "<CN>"
    predict_time := true
    padding_speech := true }

/-! ### Helper lemmas: closed forms of `load_model` and `transcribe` on each
branch. -/

/-- When the checkpoint file is missing, `load_model` logs an error and
raises the generic exception, whatever the other arguments are. -/
theorem load_model_missing_eq (cuda : Bool) (fileExists : Path → Bool)
    (model_name : String) (model_dir : PathLike) (device : Option String)
    (kwargs : List (String × PyVal))
    (h : fileExists (model_dir.toPath.join (model_name ++ ".pt")) = false) :
    load_model cuda fileExists model_name model_dir device kwargs =
      { logs := [⟨.error, "model " ++ model_name ++ " not found."⟩],
        outcome := .error (.exception
          ("model " ++ model_name ++ " not found, please download the model first.")) } := by
  simp [load_model, h]

/-- When the checkpoint file exists and `kwargs` binds `task_sym` or
`predict_time`, the constructor call raises `TypeError`. -/
theorem load_model_collision_eq (cuda : Bool) (fileExists : Path → Bool)
    (model_name : String) (model_dir : PathLike) (device : Option String)
    (kwargs : List (String × PyVal))
    (h : fileExists (model_dir.toPath.join (model_name ++ ".pt")) = true)
    (hk : (hasKey kwargs "task_sym" || hasKey kwargs "predict_time") = true) :
    load_model cuda fileExists model_name model_dir device kwargs =
      { logs := [], outcome := .error .typeError } := by
  simp [load_model, h, hk]

/-- When the checkpoint file exists and `kwargs` binds neither reserved
keyword, `load_model` constructs and returns the model. -/
theorem load_model_ok_eq (cuda : Bool) (fileExists : Path → Bool)
    (model_name : String) (model_dir : PathLike) (device : Option String)
    (kwargs : List (String × PyVal))
    (h : fileExists (model_dir.toPath.join (model_name ++ ".pt")) = true)
    (hk : (hasKey kwargs "task_sym" || hasKey kwargs "predict_time") = false) :
    load_model cuda fileExists model_name model_dir device kwargs =
      { logs := [],
        outcome := .ok
          { s2t_train_config := model_dir.toPath.join "config.yaml"
            s2t_model_file := model_dir.toPath.join (model_name ++ ".pt")
            device := match device with
              | some d => d
              | none => if cuda then "cuda" else "cpu"
            task_sym := kwGet kwargs "task_sym" (.str "<asr>")
            predict_time := kwGet kwargs "predict_time" (.bool true)
            kwargs := kwargs } } := by
  simp [load_model, h, hk]

/-- Closed form of `transcribe` when the checkpoint file is missing. -/
theorem transcribe_missing_eq (cuda : Bool) (fileExists : Path → Bool)
    (load_audio : String → Waveform)
    (invoke : DolphinSpeech2Text → InvokeArgs → DecodeResult) (args : Args)
    (h : fileExists (args.model_dir.join (args.model ++ ".pt")) = false) :
    transcribe cuda fileExists load_audio invoke args =
      { logs := [⟨.error, "model " ++ args.model ++ " not found."⟩],
        models := [], calls := [],
        outcome := .error (.exception
          ("model " ++ args.model ++ " not found, please download the model first.")) } := by
  have hlm := load_model_missing_eq cuda fileExists args.model (.path args.model_dir)
    args.device [] h
  simp [transcribe, hlm]

/-- Closed form of `transcribe` when the checkpoint file exists. -/
theorem transcribe_ok_eq (cuda : Bool) (fileExists : Path → Bool)
    (load_audio : String → Waveform)
    (invoke : DolphinSpeech2Text → InvokeArgs → DecodeResult) (args : Args)
    (h : fileExists (args.model_dir.join (args.model ++ ".pt")) = true) :
    transcribe cuda fileExists load_audio invoke args =
      { logs := [⟨.info, "decode result, text: " ++
          (invoke
            { s2t_train_config := args.model_dir.join "config.yaml"
              s2t_model_file := args.model_dir.join (args.model ++ ".pt")
              device := match args.device with
                | some d => d
                | none => if cuda then "cuda" else "cpu"
              task_sym := .str "<asr>"
              predict_time := .bool true
              kwargs := [] }
            { speech := load_audio args.audio
              lang_sym := args.lang_sym
              region_sym := args.region_sym
              predict_time := args.predict_time
              padding_speech := args.padding_speech }).text⟩],
        models := [{ s2t_train_config := args.model_dir.join "config.yaml"
                     s2t_model_file := args.model_dir.join (args.model ++ ".pt")
                     device := match args.device with
                       | some d => d
                       | none => if cuda then "cuda" else "cpu"
                     task_sym := .str "<asr>"
                     predict_time := .bool true
                     kwargs := [] }],
        calls := [{ speech := load_audio args.audio
                    lang_sym := args.lang_sym
                    region_sym := args.region_sym
                    predict_time := args.predict_time
                    padding_speech := args.padding_speech }],
        outcome := .ok
          (invoke
            { s2t_train_config := args.model_dir.join "config.yaml"
              s2t_model_file := args.model_dir.join (args.model ++ ".pt")
              device := match args.device with
                | some d => d
                | none => if cuda then "cuda" else "cpu"
              task_sym := .str "<asr>"
              predict_time := .bool true
              kwargs := [] }
            { speech := load_audio args.audio
              lang_sym := args.lang_sym
              region_sym := args.region_sym
              predict_time := args.predict_time
              padding_speech := args.padding_speech }) } := by
  have hlm := load_model_ok_eq cuda fileExists args.model (.path args.model_dir)
    args.device [] h rfl
  simp [transcribe, hlm, kwGet, PathLike.toPath]

/-- The four flags `transcribe` never reads (`dtype`, `normalize_length`,
`beam_size`, `maxlenratio`) have no effect on its behaviour. -/
theorem transcribe_ignores_unused_flags (cuda : Bool) (fileExists : Path → Bool)
    (load_audio : String → Waveform)
    (invoke : DolphinSpeech2Text → InvokeArgs → DecodeResult) (args : Args)
    (dt : String) (nl : Bool) (bs : Int) (ml : Rat) :
    transcribe cuda fileExists load_audio invoke
      { args with dtype := dt, normalize_length := nl, beam_size := bs, maxlenratio := ml }
      = transcribe cuda fileExists load_audio invoke args := by
  cases args
  rfl

/-! ### The claims. -/

/-- Claim C9: `str2bool` returns `True` exactly on the case-insensitive
variants of "y", "yes", "t", "true", "on" and "1", returns `False` exactly
on those of "n", "no", "f", "false", "off" and "0", and raises `ValueError`
on every other string. -/
theorem str2bool_classification (s : String) :
    (str2bool s = .ok true ↔ s.toLower ∈ ["y", "yes", "t", "true", "on", "1"])
    ∧ (str2bool s = .ok false ↔ s.toLower ∈ ["n", "no", "f", "false", "off", "0"])
    ∧ ((∃ e, str2bool s = .error e)
        ↔ (s.toLower ∉ ["y", "yes", "t", "true", "on", "1"]
            ∧ s.toLower ∉ ["n", "no", "f", "false", "off", "0"])) := by
  by_cases h1 : s.toLower ∈ ["y", "yes", "t", "true", "on", "1"]
  · have h2 : s.toLower ∉ ["n", "no", "f", "false", "off", "0"] := by
      simp only [List.mem_cons, List.not_mem_nil, or_false] at h1 ⊢
      rcases h1 with h | h | h | h | h | h <;> simp [h]
    simp [str2bool, strtobool, h1, h2]
  · by_cases h2 : s.toLower ∈ ["n", "no", "f", "false", "off", "0"]
    · simp [str2bool, strtobool, h1, h2]
    · simp [str2bool, strtobool, h1, h2]

/-- Claim C10: calling `load_model` with a string `model_dir` behaves
identically to calling it with `Path(s)`: the `isinstance` branch coerces
the string and everything downstream agrees. -/
theorem load_model_string_dir_eq (cuda : Bool) (fileExists : Path → Bool)
    (model_name : String) (s : String) (device : Option String)
    (kwargs : List (String × PyVal)) :
    load_model cuda fileExists model_name (.str s) device kwargs
      = load_model cuda fileExists model_name (.path ⟨s⟩) device kwargs := rfl

/-- Claim C2: `load_model` (as called, without extra keyword arguments)
raises exactly when the resolved checkpoint file is missing, logging an
error first; a missing `config.yaml` never affects the check (the outcome
depends on the filesystem only through the checkpoint path); when the
checkpoint exists the model is constructed and returned. -/
theorem load_model_raises_iff_checkpoint_missing (cuda : Bool)
    (fileExists : Path → Bool) (model_name : String) (model_dir : PathLike)
    (device : Option String) :
    ((∃ e, (load_model cuda fileExists model_name model_dir device []).outcome = .error e)
        ↔ fileExists (model_dir.toPath.join (model_name ++ ".pt")) = false)
    ∧ (fileExists (model_dir.toPath.join (model_name ++ ".pt")) = false →
        (load_model cuda fileExists model_name model_dir device []).logs
          = [⟨.error, "model " ++ model_name ++ " not found."⟩]
        ∧ (load_model cuda fileExists model_name model_dir device []).outcome
          = .error (.exception
              ("model " ++ model_name ++ " not found, please download the model first.")))
    ∧ (fileExists (model_dir.toPath.join (model_name ++ ".pt")) = true →
        ∃ m, (load_model cuda fileExists model_name model_dir device []).outcome = .ok m)
    ∧ (∀ g : Path → Bool,
        g (model_dir.toPath.join (model_name ++ ".pt"))
          = fileExists (model_dir.toPath.join (model_name ++ ".pt")) →
        load_model cuda g model_name model_dir device []
          = load_model cuda fileExists model_name model_dir device []) := by
  by_cases hfile : fileExists (model_dir.toPath.join (model_name ++ ".pt")) = true
  · have hok := load_model_ok_eq cuda fileExists model_name model_dir device [] hfile rfl
    refine ⟨?_, ?_, ?_, ?_⟩
    · rw [hok]; simp [hfile]
    · intro hmiss; simp [hfile] at hmiss
    · intro _; rw [hok]; exact ⟨_, rfl⟩
    · intro g hg
      rw [hfile] at hg
      rw [hok, load_model_ok_eq cuda g model_name model_dir device [] hg rfl]
  · simp only [Bool.not_eq_true] at hfile
    have herr := load_model_missing_eq cuda fileExists model_name model_dir device [] hfile
    refine ⟨?_, ?_, ?_, ?_⟩
    · rw [herr]; simp [hfile]
    · intro _; rw [herr]; exact ⟨rfl, rfl⟩
    · intro hc; simp [hfile] at hc
    · intro g hg
      rw [hfile] at hg
      rw [herr, load_model_missing_eq cuda g model_name model_dir device [] hg]

/-- Claim C3: whenever `load_model` constructs the model, the constructor
receives `s2t_model_file = model_dir / (model_name ++ ".pt")` and
`s2t_train_config = model_dir / "config.yaml"`. -/
theorem load_model_resolved_paths (cuda : Bool) (fileExists : Path → Bool)
    (model_name : String) (model_dir : PathLike) (device : Option String)
    (kwargs : List (String × PyVal)) (m : DolphinSpeech2Text)
    (h : (load_model cuda fileExists model_name model_dir device kwargs).outcome = .ok m) :
    m.s2t_model_file = model_dir.toPath.join (model_name ++ ".pt")
    ∧ m.s2t_train_config = model_dir.toPath.join "config.yaml" := by
  by_cases hfile : fileExists (model_dir.toPath.join (model_name ++ ".pt")) = true
  · by_cases hk : (hasKey kwargs "task_sym" || hasKey kwargs "predict_time") = true
    · rw [load_model_collision_eq cuda fileExists model_name model_dir device kwargs
        hfile hk] at h
      simp at h
    · simp only [Bool.not_eq_true] at hk
      rw [load_model_ok_eq cuda fileExists model_name model_dir device kwargs hfile hk] at h
      simp only [Except.ok.injEq] at h
      rw [← h]
      exact ⟨rfl, rfl⟩
  · simp only [Bool.not_eq_true] at hfile
    rw [load_model_missing_eq cuda fileExists model_name model_dir device kwargs hfile] at h
    simp at h

/-- Witness for claim C3 at a concrete input. -/
theorem load_model_resolved_paths_witness :
    demoModelA.s2t_model_file = (PathLike.path ⟨"/models"⟩).toPath.join ("small" ++ ".pt")
    ∧ demoModelA.s2t_train_config = (PathLike.path ⟨"/models"⟩).toPath.join "config.yaml" :=
  load_model_resolved_paths false demoExists "small" (.path ⟨"/models"⟩) none []
    demoModelA rfl

/-- Claim C4: an explicit `device` argument is used unchanged; a `None`
device becomes `"cuda"` when CUDA is available and `"cpu"` otherwise. -/
theorem load_model_device_selection (cuda : Bool) (fileExists : Path → Bool)
    (model_name : String) (model_dir : PathLike) (device : Option String)
    (kwargs : List (String × PyVal)) (m : DolphinSpeech2Text)
    (h : (load_model cuda fileExists model_name model_dir device kwargs).outcome = .ok m) :
    m.device = device.getD (if cuda then "cuda" else "cpu") := by
  by_cases hfile : fileExists (model_dir.toPath.join (model_name ++ ".pt")) = true
  · by_cases hk : (hasKey kwargs "task_sym" || hasKey kwargs "predict_time") = true
    · rw [load_model_collision_eq cuda fileExists model_name model_dir device kwargs
        hfile hk] at h
      simp at h
    · simp only [Bool.not_eq_true] at hk
      rw [load_model_ok_eq cuda fileExists model_name model_dir device kwargs hfile hk] at h
      simp only [Except.ok.injEq] at h
      subst h
      cases device <;> rfl
  · simp only [Bool.not_eq_true] at hfile
    rw [load_model_missing_eq cuda fileExists model_name model_dir device kwargs hfile] at h
    simp at h

/-- Witness for claim C4 at a concrete input: with no explicit device and no
CUDA the constructed model runs on `"cpu"`. -/
theorem load_model_device_selection_witness : demoModelA.device = "cpu" :=
  load_model_device_selection false demoExists "small" (.path ⟨"/models"⟩) none []
    demoModelA rfl

/-- Claim C5: when the checkpoint file exists, `transcribe` invokes the
model exactly once, with `speech` the waveform loaded from the positional
`audio` argument and `lang_sym`, `region_sym`, `predict_time` and
`padding_speech` taken verbatim from the parsed arguments. -/
theorem transcribe_single_invocation (cuda : Bool) (fileExists : Path → Bool)
    (load_audio : String → Waveform)
    (invoke : DolphinSpeech2Text → InvokeArgs → DecodeResult) (args : Args)
    (h : fileExists (args.model_dir.join (args.model ++ ".pt")) = true) :
    (transcribe cuda fileExists load_audio invoke args).calls =
      [{ speech := load_audio args.audio
         lang_sym := args.lang_sym
         region_sym := args.region_sym
         predict_time := args.predict_time
         padding_speech := args.padding_speech }] := by
  rw [transcribe_ok_eq cuda fileExists load_audio invoke args h]

/-- Witness for claim C5 at a concrete input. -/
theorem transcribe_single_invocation_witness :
    (transcribe false demoExists demoAudio demoInvoke demoArgsA).calls = [demoCallA] :=
  transcribe_single_invocation false demoExists demoAudio demoInvoke demoArgsA rfl

/-- Claim C6: when the checkpoint file exists, `transcribe` returns exactly
the record produced by the model invocation, unchanged, and logs its `text`
field. -/
theorem transcribe_returns_result_unchanged (cuda : Bool) (fileExists : Path → Bool)
    (load_audio : String → Waveform)
    (invoke : DolphinSpeech2Text → InvokeArgs → DecodeResult) (args : Args)
    (h : fileExists (args.model_dir.join (args.model ++ ".pt")) = true) :
    ∃ m c, (transcribe cuda fileExists load_audio invoke args).models = [m]
      ∧ (transcribe cuda fileExists load_audio invoke args).calls = [c]
      ∧ (transcribe cuda fileExists load_audio invoke args).outcome = .ok (invoke m c)
      ∧ (transcribe cuda fileExists load_audio invoke args).logs
          = [⟨.info, "decode result, text: " ++ (invoke m c).text⟩] := by
  rw [transcribe_ok_eq cuda fileExists load_audio invoke args h]
  exact ⟨_, _, rfl, rfl, rfl, rfl⟩

/-- Witness for claim C6 at a concrete input. -/
theorem transcribe_returns_result_unchanged_witness :
    ∃ m c, (transcribe false demoExists demoAudio demoInvoke demoArgsA).models = [m]
      ∧ (transcribe false demoExists demoAudio demoInvoke demoArgsA).calls = [c]
      ∧ (transcribe false demoExists demoAudio demoInvoke demoArgsA).outcome
          = .ok (demoInvoke m c)
      ∧ (transcribe false demoExists demoAudio demoInvoke demoArgsA).logs
          = [⟨.info, "decode result, text: " ++ (demoInvoke m c).text⟩] :=
  transcribe_returns_result_unchanged false demoExists demoAudio demoInvoke demoArgsA rfl

/-- Claim C7: the `cli` entry point raises exactly when the resolved
checkpoint file is missing; otherwise (the external collaborators being
total here, i.e. succeeding) it completes normally with the transcript as
its last log line. -/
theorem cli_exit_behavior (cuda : Bool) (fileExists : Path → Bool)
    (load_audio : String → Waveform)
    (invoke : DolphinSpeech2Text → InvokeArgs → DecodeResult) (args : Args) :
    ((∃ e, (cli cuda fileExists load_audio invoke args).outcome = .error e)
        ↔ fileExists (args.model_dir.join (args.model ++ ".pt")) = false)
    ∧ (fileExists (args.model_dir.join (args.model ++ ".pt")) = true →
        ∃ r, (cli cuda fileExists load_audio invoke args).outcome = .ok r
          ∧ (cli cuda fileExists load_audio invoke args).logs.getLast?
              = some ⟨.info, "decode result, text: " ++ r.text⟩) := by
  by_cases hfile : fileExists (args.model_dir.join (args.model ++ ".pt")) = true
  · have hok := transcribe_ok_eq cuda fileExists load_audio invoke args hfile
    constructor
    · simp only [cli]; rw [hok]; simp [hfile]
    · intro _; simp only [cli]; rw [hok]; exact ⟨_, rfl, rfl⟩
  · simp only [Bool.not_eq_true] at hfile
    have herr := transcribe_missing_eq cuda fileExists load_audio invoke args hfile
    constructor
    · simp only [cli]; rw [herr]; simp [hfile]
    · intro hc; simp [hfile] at hc

/-- Claim C1, amended: of the configuration flags, `--model` (through the
resolved checkpoint path), `--device` (verbatim when given), `--lang_sym`,
`--region_sym`, `--predict_time` and `--padding_speech` reach the external
constructor or invocation unchanged, while `--dtype`, `--normalize_length`,
`--beam_size` and `--maxlenratio` are parsed but never used. -/
theorem flags_pass_through_amended (cuda : Bool) (fileExists : Path → Bool)
    (load_audio : String → Waveform)
    (invoke : DolphinSpeech2Text → InvokeArgs → DecodeResult) (args : Args)
    (m : DolphinSpeech2Text) (c : InvokeArgs)
    (hm : (transcribe cuda fileExists load_audio invoke args).models = [m])
    (hc : (transcribe cuda fileExists load_audio invoke args).calls = [c]) :
    m.s2t_model_file = args.model_dir.join (args.model ++ ".pt")
    ∧ m.s2t_train_config = args.model_dir.join "config.yaml"
    ∧ (∀ d, args.device = some d → m.device = d)
    ∧ c.speech = load_audio args.audio
    ∧ c.lang_sym = args.lang_sym
    ∧ c.region_sym = args.region_sym
    ∧ c.predict_time = args.predict_time
    ∧ c.padding_speech = args.padding_speech
    ∧ (∀ (dt : String) (nl : Bool) (bs : Int) (ml : Rat),
        transcribe cuda fileExists load_audio invoke
          { args with dtype := dt, normalize_length := nl, beam_size := bs, maxlenratio := ml }
          = transcribe cuda fileExists load_audio invoke args) := by
  by_cases hfile : fileExists (args.model_dir.join (args.model ++ ".pt")) = true
  · rw [transcribe_ok_eq cuda fileExists load_audio invoke args hfile] at hm hc
    simp only [List.cons.injEq, and_true] at hm hc
    subst hm
    subst hc
    refine ⟨rfl, rfl, ?_, rfl, rfl, rfl, rfl, rfl, ?_⟩
    · intro d hd
      simp [hd]
    · intro dt nl bs ml
      exact transcribe_ignores_unused_flags cuda fileExists load_audio invoke args dt nl bs ml
  · simp only [Bool.not_eq_true] at hfile
    rw [transcribe_missing_eq cuda fileExists load_audio invoke args hfile] at hm
    simp at hm

/-- Witness for the amended claim C1 at a concrete input. -/
theorem flags_pass_through_amended_witness :
    demoModelA.s2t_model_file = demoArgsA.model_dir.join (demoArgsA.model ++ ".pt")
    ∧ demoModelA.s2t_train_config = demoArgsA.model_dir.join "config.yaml"
    ∧ (∀ d, demoArgsA.device = some d → demoModelA.device = d)
    ∧ demoCallA.speech = demoAudio demoArgsA.audio
    ∧ demoCallA.lang_sym = demoArgsA.lang_sym
    ∧ demoCallA.region_sym = demoArgsA.region_sym
    ∧ demoCallA.predict_time = demoArgsA.predict_time
    ∧ demoCallA.padding_speech = demoArgsA.padding_speech
    ∧ (∀ (dt : String) (nl : Bool) (bs : Int) (ml : Rat),
        transcribe false demoExists demoAudio demoInvoke
          { demoArgsA with
            dtype := dt, normalize_length := nl, beam_size := bs, maxlenratio := ml }
          = transcribe false demoExists demoAudio demoInvoke demoArgsA) :=
  flags_pass_through_amended false demoExists demoAudio demoInvoke demoArgsA
    demoModelA demoCallA rfl rfl

/-- Counterexample to claim C1 as stated: two parsed argument sets that
differ in `--dtype`, `--normalize_length`, `--beam_size` and
`--maxlenratio` produce bit-for-bit the same behaviour — the same
constructor calls, the same model invocations, the same logs and the same
result — so those four flags are not passed through to the external model
at all. -/
theorem flags_dropped_counterexample :
    demoArgsA.dtype ≠ demoArgsB.dtype
    ∧ demoArgsA.normalize_length ≠ demoArgsB.normalize_length
    ∧ demoArgsA.beam_size ≠ demoArgsB.beam_size
    ∧ demoArgsA.maxlenratio ≠ demoArgsB.maxlenratio
    ∧ transcribe false demoExists demoAudio demoInvoke demoArgsA
        = transcribe false demoExists demoAudio demoInvoke demoArgsB :=
  ⟨by decide, by decide, by decide, by decide, rfl⟩

/-- Claim C8, amended: when the checkpoint file exists and the extra
keyword arguments bind `task_sym` or `predict_time`, the constructor call
raises `TypeError` (the keyword is supplied once via `kwargs.get` and again
through the `**kwargs` expansion). -/
theorem kwargs_collision_raises (cuda : Bool) (fileExists : Path → Bool)
    (model_name : String) (model_dir : PathLike) (device : Option String)
    (kwargs : List (String × PyVal))
    (hfile : fileExists (model_dir.toPath.join (model_name ++ ".pt")) = true)
    (hkw : hasKey kwargs "task_sym" = true ∨ hasKey kwargs "predict_time" = true) :
    (load_model cuda fileExists model_name model_dir device kwargs).outcome
      = .error .typeError := by
  have hk : (hasKey kwargs "task_sym" || hasKey kwargs "predict_time") = true := by
    rcases hkw with h | h <;> simp [h]
  rw [load_model_collision_eq cuda fileExists model_name model_dir device kwargs hfile hk]

/-- Witness for the amended claim C8 at a concrete input. -/
theorem kwargs_collision_raises_witness :
    (load_model false demoExists "small" (.path ⟨"/models"⟩) none
        [("task_sym", PyVal.str "<st>")]).outcome = .error .typeError :=
  kwargs_collision_raises false demoExists "small" (.path ⟨"/models"⟩) none
    [("task_sym", PyVal.str "<st>")] rfl (Or.inl rfl)

/-- A filesystem on which no path exists, for the counterexample below. -/
def demoMissing : Path → Bool := fun _ => false

/-- Counterexample to claim C8 as stated: a call whose extra keyword
arguments bind `task_sym` but whose checkpoint file is missing raises the
generic not-found exception, not a `TypeError` — the existence check fires
first. -/
theorem kwargs_collision_counterexample :
    ¬ ((load_model false demoMissing "small" (.path ⟨"/models"⟩) none
        [("task_sym", PyVal.str "<st>")]).outcome = .error .typeError)
    ∧ (load_model false demoMissing "small" (.path ⟨"/models"⟩) none
        [("task_sym", PyVal.str "<st>")]).outcome
      = .error (.exception "model small not found, please download the model first.") :=
  ⟨by decide, rfl⟩

end Dolphin
